import Mathlib

/-!
Verification of the metadata-artifact, reasoning-engine and model-service
transport layers of the `python-aiplatform` SDK sample, as a shallow
embedding in Lean 4.

Source files embedded:
* `google/cloud/aiplatform/metadata/artifact.py`
  (`Artifact.get_with_uri`, `_Artifact._create`,
  `VertexResourceArtifactResolver`);
* `vertexai/reasoning_engines/_reasoning_engines.py`
  (`ReasoningEngine.create`, `_prepare`, `ReasoningEngine.query`);
* `aiplatform_v1beta1/services/model_service/transports/base.py`
  (`ModelServiceTransport.__init__`).

Remote services (the metadata store, object storage, the reasoning-engine
execution endpoint) are collaborators reached over RPC; they are modelled
either by passing their response in as an argument, or, for stateful
claims, by an explicit store state as described in the design notes of the
specification.
-/

/-- The Python exception classes that the embedded code can raise.
`valueError`, `typeError`, `fileNotFoundError` and `ioError` are Python
builtins; `notFound`, `alreadyExists` and `duplicateCredentialArgs` are
the `google.api_core.exceptions` classes of the same names. -/
inductive PyError where
  | valueError (msg : String)
  | typeError (msg : String)
  | fileNotFoundError (msg : String)
  | ioError (msg : String)
  | notFound (msg : String)
  | alreadyExists (msg : String)
  | duplicateCredentialArgs (msg : String)
deriving DecidableEq, Repr

namespace Metadata

/-- The fields of a `gca_artifact.Artifact` proto that the embedded code
reads: `uri`, `schema_title`, `create_time`, the full resource name and
the metadata map.  `create_time` is a timestamp, modelled as a natural
number. -/
structure ArtifactRec where
  resourceName : String
  uri : String
  schemaTitle : String
  createTime : Nat
  displayName : Option String
  metadata : List (String × String)
deriving DecidableEq, Repr

/-- A log line emitted through `_LOGGER.info`. -/
structure LogLine where
  msg : String
deriving DecidableEq, Repr

/-- Result of `Artifact.get_with_uri`: either the returned artifact or the
raised exception, together with the `_LOGGER.info` lines emitted. -/
structure GetWithUriOutcome where
  result : Except PyError ArtifactRec
  logs : List LogLine
deriving Repr

/-- `Artifact.get_with_uri` (artifact.py lines 276-306).  The remote
`Artifact.list` call for the filter `uri = "<uri>"` is a collaborator;
its response is the argument `matched_artifacts`.  The body checks for
zero matches (raising `ValueError`), logs when there is more than one
match, and returns `matched_artifacts[0]`. -/
def get_with_uri (uri : String) (metadata_store_id : String)
    (matched_artifacts : List ArtifactRec) : GetWithUriOutcome :=
  match matched_artifacts with
  | [] =>
    { result := .error (.valueError
        ("No artifact with uri " ++ uri ++ " is in the " ++
          metadata_store_id ++ " MetadataStore."))
      logs := [] }
  | first :: _rest =>
    let logs :=
      if matched_artifacts.length > 1 then
        let resource_names :=
          String.intercalate "\n" (matched_artifacts.map (·.resourceName))
        [⟨"Mutiple artifacts with uri " ++ uri ++ " were found: " ++
            resource_names⟩,
         ⟨"Returning " ++ first.resourceName⟩]
      else []
    { result := .ok first, logs := logs }

/-- The local handle object constructed by `_Artifact._create` on success
(`cls(resource=resource, project=..., location=..., credentials=...)`). -/
structure ArtifactHandle where
  resource : ArtifactRec
  project : Option String
  location : Option String
deriving DecidableEq, Repr

/-- `_Artifact._create` (artifact.py lines 74-158) from the point where
the remote `_create_resource` call returns.  The remote call is a
collaborator whose outcome is the argument `create_result`.  The source
wraps it in `try/except exceptions.AlreadyExists as e: raise e` — the
`AlreadyExists` error is re-raised unchanged (the old swallow-and-log
fallback is commented out), every other error propagates because no other
handler exists, and on success the class is instantiated on the returned
resource. -/
def Artifact_create (create_result : Except PyError ArtifactRec)
    (project location : Option String) : Except PyError ArtifactHandle :=
  match create_result with
  | .error e =>
    match e with
    | .alreadyExists m => .error (.alreadyExists m)
    | other => .error other
  | .ok resource =>
    .ok { resource := resource, project := project, location := location }

/-- `artifacts.sort(key=lambda a: a.create_time)`: Python `list.sort` is a
stable ascending sort by the key. -/
def sortByCreateTime (artifacts : List ArtifactRec) : List ArtifactRec :=
  artifacts.mergeSort (fun a b => a.createTime ≤ b.createTime)

/-- The tail of `VertexResourceArtifactResolver.resolve_vertex_resource`
(artifact.py lines 332-351) after the remote `Artifact.list` call, whose
response is the argument: sort ascending by `create_time`, return the
last element when non-empty, fall through to the implicit `None`
otherwise. -/
def resolveFromList (artifacts : List ArtifactRec) : Option ArtifactRec :=
  let sorted := sortByCreateTime artifacts
  sorted.getLast?

/-- The local fields of a `models.Model` that the resolver reads:
its resource name, display name, project, location. -/
structure VertexModel where
  resourceName : String
  displayName : Option String
  project : String
  location : String
deriving DecidableEq, Repr

/-- `VertexResourceArtifactResolver._resource_to_artifact_type` maps the
one supported resource type, `models.Model`, to the schema title
`google.VertexModel`. -/
def resource_to_artifact_type (_resource : VertexModel) : String :=
  "google.VertexModel"

/-- Modelled from the spec: `metadata_utils.make_gcp_resource_url`
(`google/cloud/aiplatform/metadata/utils.py` is not part of the sample)
"computes a canonical URI" for the resource — a deterministic function of
the resource's identity. -/
def make_gcp_resource_url (resource : VertexModel) : String :=
  "https://aiplatform.googleapis.com/v1/" ++ resource.resourceName

/-- Modelled from the spec: the remote metadata store visible to the
resolver.  Per the data model, it holds the Artifact rows, and the
service assigns each created row its id and creation timestamp;
`nextTime`/`nextId` model those monotone counters. -/
structure MetadataStore where
  rows : List ArtifactRec
  nextTime : Nat
  nextId : Nat
deriving Repr

/-- Modelled from the spec: the remote `Artifact.list` call with the
`make_filter_string(schema_title=..., uri=...)` equality filter returns
the stored rows whose `schema_title` and `uri` both match. -/
def listMatching (store : MetadataStore) (schemaTitle uri : String) :
    List ArtifactRec :=
  store.rows.filter (fun a => a.schemaTitle = schemaTitle ∧ a.uri = uri)

/-- Modelled from the spec: the remote `create_artifact` call appends a
new `LIVE` row built from the request fields, stamped with the
service-assigned creation time and resource id, and returns it.
Creation never checks for duplicates (spec §8: "Artifact `create` always
succeeds in producing a new row"). -/
def storeCreateArtifact (store : MetadataStore) (schemaTitle : String)
    (uri : String) (displayName : Option String)
    (metadata : List (String × String)) : ArtifactRec × MetadataStore :=
  let row : ArtifactRec :=
    { resourceName := "artifacts/" ++ toString store.nextId
      uri := uri
      schemaTitle := schemaTitle
      createTime := store.nextTime
      displayName := displayName
      metadata := metadata }
  (row, { rows := store.rows ++ [row]
          nextTime := store.nextTime + 1
          nextId := store.nextId + 1 })

/-- `VertexResourceArtifactResolver.resolve_vertex_resource` against the
modelled store: list by `(schema_title, uri)` filter, sort ascending by
creation time, return the last (`artifacts[-1]`) or `None`. -/
def resolve_vertex_resource (store : MetadataStore)
    (resource : VertexModel) : Option ArtifactRec :=
  let metadata_type := resource_to_artifact_type resource
  let uri := make_gcp_resource_url resource
  resolveFromList (listMatching store metadata_type uri)

/-- `VertexResourceArtifactResolver.create_vertex_resource_artifact`
(artifact.py lines 353-369) against the modelled store:
`Artifact.create(schema_title=metadata_type, display_name=...,
uri=uri, metadata={'resourceName': resource.resource_name}, ...)`. -/
def create_vertex_resource_artifact (store : MetadataStore)
    (resource : VertexModel) : ArtifactRec × MetadataStore :=
  let metadata_type := resource_to_artifact_type resource
  let uri := make_gcp_resource_url resource
  storeCreateArtifact store metadata_type uri resource.displayName
    [("resourceName", resource.resourceName)]

/-- `VertexResourceArtifactResolver.resolve_or_create_resource_artifact`
(artifact.py lines 371-376): resolve; if the result is truthy return it,
otherwise create. -/
def resolve_or_create_resource_artifact (store : MetadataStore)
    (resource : VertexModel) : ArtifactRec × MetadataStore :=
  match resolve_vertex_resource store resource with
  | some artifact => (artifact, store)
  | none => create_vertex_resource_artifact store resource

/-- Whether an outcome is a raised `google.api_core.exceptions.NotFound`. -/
def raisedNotFound (r : Except PyError ArtifactRec) : Bool :=
  match r with
  | .error (.notFound _) => true
  | _ => false

/-- A sample stored artifact for the `gs://bucket/model` uri, used to
evaluate the artifact operations at concrete inputs. -/
def artifactAt (name : String) (t : Nat) : ArtifactRec :=
  { resourceName := name
    uri := "gs://bucket/model"
    schemaTitle := "system.Artifact"
    createTime := t
    displayName := none
    metadata := [] }

end Metadata

namespace ReasoningEngines

/-- Module constants of `_reasoning_engines.py` (lines 33-37). -/
def SUPPORTED_PYTHON_VERSIONS : List String := ["3.8", "3.9", "3.10", "3.11"]

def DEFAULT_GCS_DIR_NAME : String := "reasoning_engine"

def BLOB_FILENAME : String := "reasoning_engine.pkl"

def REQUIREMENTS_FILE : String := "requirements.txt"

def EXTRA_PACKAGES_FILE : String := "dependencies.tar.gz"

/-- Python `str.startswith`: a character-level prefix test. -/
def strStartsWith (s pre : String) : Bool :=
  s.data.take pre.data.length == pre.data

/-- The local filesystem as the embedded code observes it:
`os.path.exists` and `open(path).read()` (where `none` models the read
raising `IOError`).  File contents are character lists. -/
structure FileSystem where
  pathExists : String → Bool
  readFile : String → Option (List Char)

/-- The characters Python `str.splitlines` treats as line boundaries:
LF, CR, VT, FF, FS, GS, RS, NEL, LINE SEPARATOR, PARAGRAPH SEPARATOR
(CRLF is handled as a single boundary in `splitlines` below). -/
def isLineBreak (c : Char) : Bool :=
  c == '\n' || c == '\r' || c.val == 0x0b || c.val == 0x0c ||
  c.val == 0x1c || c.val == 0x1d || c.val == 0x1e || c.val == 0x85 ||
  c.val == 0x2028 || c.val == 0x2029

/-- Python `str.splitlines()` (without keepends): split at every line
boundary, treating CRLF as one boundary; a trailing boundary produces no
trailing empty line, and the empty string yields no lines. -/
def splitlines : List Char → List (List Char)
  | [] => []
  | c :: cs =>
    if c = '\r' ∧ cs.head? = some '\n' then
      [] :: splitlines cs.tail
    else if isLineBreak c then
      [] :: splitlines cs
    else
      match splitlines cs with
      | [] => [[c]]
      | l :: ls => (c :: l) :: ls
termination_by l => l.length
decreasing_by
  · simp only [List.length_cons, List.length_tail]
    omega
  · simp
  · simp

/-- The content of a text file holding exactly the given lines, each
terminated by a newline character. -/
def encodeLines (lines : List (List Char)) : List Char :=
  lines.foldr (fun l acc => l ++ '\n' :: acc) []

/-- The proto value appended to `spec.class_methods` when
`_utils.generate_schema` (a collaborator outside the sample) succeeds;
its payload is opaque to the embedded code. -/
structure SchemaProto where
  payload : String
deriving DecidableEq, Repr

/-- `types.ReasoningEngineSpec.PackageSpec` as populated by `create`
(lines 261-279): the three blob URIs and the python version, with the
requirements URI set only when requirements are non-empty. -/
structure PackageSpec where
  pythonVersion : String
  pickleObjectGcsUri : String
  dependencyFilesGcsUri : String
  requirementsGcsUri : Option String
deriving DecidableEq, Repr

/-- `types.ReasoningEngineSpec` as populated by `create`: the package
spec plus the `class_methods` list (empty unless schema generation
succeeded). -/
structure ReasoningEngineSpec where
  packageSpec : PackageSpec
  classMethods : List SchemaProto
deriving DecidableEq, Repr

/-- The outward-visible actions of `create`/`_prepare`, in program order:
object-storage calls (`get_bucket`/`create_bucket`, blob uploads), the
`create_reasoning_engine` RPC, and `_LOGGER.warning` lines. -/
inductive Event where
  | useBucket (name : String)
  | createBucket (name : String) (location : String)
  | uploadPickle (path : String)
  | uploadRequirements (path : String) (content : List Char)
  | uploadExtraPackages (path : String)
  | createReasoningEngineRPC (spec : ReasoningEngineSpec)
  | logWarning (msg : String)
deriving DecidableEq, Repr

/-- Events that reach outside the process: every object-storage call and
every RPC; only local log lines do not. -/
def Event.touchesRemote : Event → Bool
  | .logWarning _ => false
  | _ => true

/-- Object-storage blob uploads. -/
def Event.isUpload : Event → Bool
  | .uploadPickle _ => true
  | .uploadRequirements _ _ => true
  | .uploadExtraPackages _ => true
  | _ => false

/-- The ambient state `create` consults: the runtime python version
(`sys.version_info`), the global staging bucket, the local filesystem,
whether `get_bucket` finds the staging bucket, the resource name the
service assigns to the created engine, and the project/location. -/
structure CreateEnv where
  runtimeVersion : String
  stagingBucket : Option String
  fs : FileSystem
  bucketFound : Bool
  createdName : String
  project : String
  location : String

/-- The user-supplied application object as `create` observes it:
whether `hasattr(obj, "query")` finds a callable, whether
`inspect.signature(obj.query)` succeeds, and the outcome of the
best-effort `_utils.generate_schema` call on its `query` method. -/
structure QueryableApp where
  hasCallableQuery : Bool
  signatureOk : Bool
  schemaResult : Except String SchemaProto

/-- The keyword arguments of `ReasoningEngine.create`.  `requirements`
is either a path to a file (`Sum.inl`) or the literal list of lines
(`Sum.inr`). -/
structure CreateArgs where
  requirements : Option (Sum String (List (List Char)))
  reasoningEngineName : Option String
  gcsDirName : String
  sysVersion : Option String
  extraPackages : Option (List String)

/-- The requirements normalization of `create` (lines 231-241):
a string argument is read from disk and split into lines (`IOError` on a
failed read), then `requirements = requirements or []`. -/
def normalizeRequirements (fs : FileSystem)
    (requirements : Option (Sum String (List (List Char)))) :
    Except PyError (List (List Char)) :=
  match requirements with
  | some (.inl path) =>
    match fs.readFile path with
    | some content => .ok (splitlines content)
    | none => .error (.ioError ("Failed to read requirements from " ++ path))
  | some (.inr lines) => .ok lines
  | none => .ok []

/-- The local handle returned by `create` on success, bound to the
service-assigned resource name. -/
structure EngineHandle where
  name : String
  spec : ReasoningEngineSpec
deriving DecidableEq, Repr

/-- `_prepare` (lines 362-420): get or create the staging bucket, upload
the pickled object, upload the newline-joined requirements when they are
non-empty, and upload the in-memory tar of `extra_packages`.  All its
effects are object-storage calls, recorded as events. -/
def prepare (requirements : List (List Char)) (bucketFound : Bool)
    (staging_bucket gcs_dir_name location : String) : List Event :=
  let bucket_name := staging_bucket.replace "gs://" ""
  (if bucketFound then [Event.useBucket bucket_name]
   else [Event.createBucket bucket_name location]) ++
  [Event.uploadPickle (gcs_dir_name ++ "/" ++ BLOB_FILENAME)] ++
  (if requirements.isEmpty then []
   else [Event.uploadRequirements (gcs_dir_name ++ "/" ++ REQUIREMENTS_FILE)
          (List.intercalate ['\n'] requirements)]) ++
  [Event.uploadExtraPackages (gcs_dir_name ++ "/" ++ EXTRA_PACKAGES_FILE)]

/-- `ReasoningEngine.create` (lines 91-328): version check, warnings,
staging-bucket checks, `query`-capability and signature checks,
requirements normalization, `extra_packages` existence validation,
`_prepare` (all uploads), spec construction, best-effort schema
generation, and finally the `create_reasoning_engine` RPC.  Returns the
outcome together with the event trace in program order. -/
def create (env : CreateEnv) (app : QueryableApp) (args : CreateArgs) :
    Except PyError EngineHandle × List Event :=
  let sys_version := args.sysVersion.getD env.runtimeVersion
  if sys_version ∉ SUPPORTED_PYTHON_VERSIONS then
    (.error (.valueError ("Unsupported python version: " ++ sys_version)), [])
  else
    let warnings :=
      (if args.reasoningEngineName.isSome then
        [Event.logWarning
          "ReasoningEngine does not support user-defined resource IDs"]
       else []) ++
      (if sys_version ≠ env.runtimeVersion then
        [Event.logWarning "sys_version is inconsistent with sys.version_info"]
       else [])
    match env.stagingBucket with
    | none =>
      (.error (.valueError "Please provide a staging_bucket in vertexai.init"),
        warnings)
    | some staging_bucket =>
      if ¬ strStartsWith staging_bucket "gs://" then
        (.error (.valueError "staging_bucket must start with gs://"), warnings)
      else if ¬ app.hasCallableQuery then
        (.error (.typeError
          "reasoning_engine does not have a callable method named query"),
          warnings)
      else if ¬ app.signatureOk then
        (.error (.valueError "Invalid query signature."), warnings)
      else
        match normalizeRequirements env.fs args.requirements with
        | .error e => (.error e, warnings)
        | .ok requirements =>
          let extra_packages := args.extraPackages.getD []
          match extra_packages.find? (fun p => !(env.fs.pathExists p)) with
          | some missing =>
            (.error (.fileNotFoundError
              ("Extra package specified but not found: " ++ missing)),
              warnings)
          | none =>
            let prepEvents := prepare requirements env.bucketFound
              staging_bucket args.gcsDirName env.location
            let package_spec : PackageSpec :=
              { pythonVersion := sys_version
                pickleObjectGcsUri :=
                  staging_bucket ++ "/" ++ args.gcsDirName ++ "/" ++
                    BLOB_FILENAME
                dependencyFilesGcsUri :=
                  staging_bucket ++ "/" ++ args.gcsDirName ++ "/" ++
                    EXTRA_PACKAGES_FILE
                requirementsGcsUri :=
                  if requirements.isEmpty then none
                  else some (staging_bucket ++ "/" ++ args.gcsDirName ++
                    "/" ++ REQUIREMENTS_FILE) }
            let classMethods :=
              match app.schemaResult with
              | .ok schema => [schema]
              | .error _ => []
            let schemaEvents :=
              match app.schemaResult with
              | .ok _ => []
              | .error e =>
                [Event.logWarning ("failed to generate schema: " ++ e)]
            let spec : ReasoningEngineSpec :=
              { packageSpec := package_spec, classMethods := classMethods }
            (.ok { name := env.createdName, spec := spec },
              warnings ++ prepEvents ++ schemaEvents ++
                [Event.createReasoningEngineRPC spec])

/-- The content of the requirements blob uploaded during a trace, when
one was uploaded. -/
def requirementsBlob (events : List Event) : Option (List Char) :=
  events.findSome? (fun e =>
    match e with
    | .uploadRequirements _ content => some content
    | _ => none)

/-- A JSON-like value, the shape `_utils.to_dict` produces from a proto
message. -/
inductive Json where
  | null
  | bool (b : Bool)
  | num (n : Int)
  | str (s : String)
  | arr (elems : List Json)
  | obj (fields : List (String × Json))
deriving Repr

/-- The tail of `ReasoningEngine.query` (lines 337-359) after the remote
`query_reasoning_engine` call: its response, converted by
`_utils.to_dict`, is the argument.  `if "output" in output: return
output.get("output")` — the value under `"output"` when that key is
present, the whole dictionary otherwise. -/
def ReasoningEngine_query (output : List (String × Json)) : Json :=
  match output.lookup "output" with
  | some v => v
  | none => .obj output

/-- Sample requirement lines for concrete evaluations. -/
def sampleLines : List (List Char) := [['p', 'k', 'g', '1'], ['p', 'k', 'g', '2']]

/-- A sample local filesystem: every path exists except `missing.py`,
and `requirements.txt` holds `sampleLines`. -/
def sampleFS : FileSystem :=
  { pathExists := fun p => !(p == "missing.py")
    readFile := fun p =>
      if p = "requirements.txt" then some (encodeLines sampleLines)
      else none }

/-- A sample ambient state for concrete evaluations of `create`. -/
def sampleEnv : CreateEnv :=
  { runtimeVersion := "3.10"
    stagingBucket := some "gs://staging"
    fs := sampleFS
    bucketFound := true
    createdName := "projects/p/locations/us-central1/reasoningEngines/1"
    project := "p"
    location := "us-central1" }

/-- A sample application whose schema generation succeeds. -/
def sampleApp : QueryableApp :=
  { hasCallableQuery := true
    signatureOk := true
    schemaResult := .ok ⟨"query-schema"⟩ }

/-- A sample application whose schema generation fails. -/
def sampleAppNoSchema : QueryableApp :=
  { hasCallableQuery := true
    signatureOk := true
    schemaResult := .error "schema generation blew up" }

/-- Sample `create` keyword arguments. -/
def sampleArgs : CreateArgs :=
  { requirements := none
    reasoningEngineName := none
    gcsDirName := DEFAULT_GCS_DIR_NAME
    sysVersion := none
    extraPackages := some ["pkg_dir"] }

end ReasoningEngines

namespace Transport

/-- An authorization credentials object (`google.auth.credentials`);
its content is opaque to the transport constructor, which only stores
it.  Any such object is truthy in Python. -/
structure Credentials where
  id : String
deriving DecidableEq, Repr

/-- The credential-acquisition calls `__init__` can make:
`google.auth.load_credentials_from_file(credentials_file, ...)` and the
default lookup `google.auth.default(...)`. -/
inductive CredEvent where
  | loadCredentialsFromFile (path : String)
  | defaultCredentialLookup
deriving DecidableEq, Repr

/-- The fields of the transport that `__init__` assigns and the claims
read: `_host` and `_credentials`. -/
structure TransportState where
  host : String
  credentials : Credentials
deriving DecidableEq, Repr

/-- The authentication library as a collaborator: what
`load_credentials_from_file` and `google.auth.default` would return. -/
structure AuthEnv where
  loadFromFile : String → Credentials
  defaultCredentials : Credentials

/-- Python `":" in host`: character membership in the string. -/
def strContainsChar (s : String) (c : Char) : Bool :=
  s.data.contains c

/-- Python truthiness of an optional string argument: `None` and the
empty string are falsy, every other string is truthy. -/
def truthyOptStr : Option String → Bool
  | none => false
  | some s => !(s == "")

def DEFAULT_HOST : String := "aiplatform.googleapis.com"

/-- `ModelServiceTransport.__init__` (base.py lines 54-119), host and
credential resolution: append `:443` when `host` has no colon; raise
`DuplicateCredentialArgs` when `credentials and credentials_file` is
truthy; otherwise load from the file when `credentials_file is not
None`, fall back to the default lookup when `credentials is None`, and
store the result.  Returns the constructed state (or the raised error)
with the credential-acquisition calls made. -/
def ModelServiceTransport_init (env : AuthEnv) (host : String)
    (credentials : Option Credentials) (credentials_file : Option String) :
    Except PyError TransportState × List CredEvent :=
  let host := if strContainsChar host ':' then host else host ++ ":443"
  if credentials.isSome ∧ truthyOptStr credentials_file then
    (.error (.duplicateCredentialArgs
      "credentials_file and credentials are mutually exclusive"), [])
  else
    match credentials_file with
    | some path =>
      (.ok { host := host, credentials := env.loadFromFile path },
        [CredEvent.loadCredentialsFromFile path])
    | none =>
      match credentials with
      | none =>
        (.ok { host := host, credentials := env.defaultCredentials },
          [CredEvent.defaultCredentialLookup])
      | some creds => (.ok { host := host, credentials := creds }, [])

end Transport

/-! ## Helper lemmas -/

/-- In a list that is `Pairwise r` for a reflexive `r`, every element is
related to the last element. -/
theorem pairwise_rel_getLast {α : Type} {r : α → α → Prop} :
    ∀ {l : List α}, l.Pairwise r → (∀ a, r a a) → ∀ (hne : l ≠ []) {b : α},
      b ∈ l → r b (l.getLast hne) := by
  intro l
  induction l with
  | nil => intro _ _ hne; exact absurd rfl hne
  | cons a t ih =>
    intro hp hrefl hne b hb
    cases t with
    | nil =>
      simp at hb
      subst hb
      exact hrefl _
    | cons c t' =>
      rw [List.getLast_cons (by simp)]
      rcases List.mem_cons.mp hb with h | h
      · subst h
        exact (List.pairwise_cons.mp hp).1 _ (List.getLast_mem (by simp))
      · exact ih (List.pairwise_cons.mp hp).2 hrefl (by simp) h

namespace Metadata

/-- The output of `sortByCreateTime` is ascending in `createTime`. -/
theorem sortByCreateTime_pairwise (l : List ArtifactRec) :
    (sortByCreateTime l).Pairwise
      (fun a b => a.createTime ≤ b.createTime) := by
  have h := @List.sorted_mergeSort ArtifactRec
    (fun a b => decide (a.createTime ≤ b.createTime))
    (by intro a b c hab hbc; simp at hab hbc ⊢; omega)
    (by intro a b; simp; omega) l
  exact h.imp (by intro a b hab; simpa using hab)

/-- `sortByCreateTime` permutes its input. -/
theorem sortByCreateTime_perm (l : List ArtifactRec) :
    List.Perm (sortByCreateTime l) l :=
  List.mergeSort_perm l _

end Metadata

/-! ## Claim theorems -/

namespace Metadata

/-- C1 counterexample: with two matches where the second one was created
later, `get_with_uri` returns the first element of the service order,
which is not the matched artifact with the maximum creation timestamp —
refuting the claim that the most-recently-created match is returned. -/
theorem c1_counterexample_returns_first_not_most_recent :
    (get_with_uri "gs://bucket/model" "default"
        [artifactAt "artifacts/a" 5, artifactAt "artifacts/b" 9]).result =
      .ok (artifactAt "artifacts/a" 5) ∧
    (artifactAt "artifacts/a" 5).createTime <
      (artifactAt "artifacts/b" 9).createTime := by
  exact ⟨rfl, by decide⟩

/-- C1 (amended): for every call of `Artifact.get_with_uri` whose
underlying list returns N>1 matching artifacts, the call returns the
first element of the service's result order (not necessarily the one
with the maximum creation timestamp) and logs the resource names of all
N matches, followed by the name of the returned one. -/
theorem c1_amended_returns_first_and_logs_all_names (uri msid : String)
    (first : ArtifactRec) (rest : List ArtifactRec) (h : rest ≠ []) :
    (get_with_uri uri msid (first :: rest)).result = .ok first ∧
    (get_with_uri uri msid (first :: rest)).logs =
      [⟨"Mutiple artifacts with uri " ++ uri ++ " were found: " ++
          String.intercalate "\n"
            ((first :: rest).map (fun a => a.resourceName))⟩,
       ⟨"Returning " ++ first.resourceName⟩] := by
  have hlen : (first :: rest).length > 1 := by
    cases rest with
    | nil => exact absurd rfl h
    | cons b bs => simp
  refine ⟨rfl, ?_⟩
  simp [get_with_uri, hlen, h]

/-- Witness for the amended C1 at a concrete two-element list. -/
theorem c1_amended_witness :
    (get_with_uri "gs://bucket/model" "default"
        [artifactAt "artifacts/a" 5, artifactAt "artifacts/b" 9]).result =
      .ok (artifactAt "artifacts/a" 5) ∧
    (get_with_uri "gs://bucket/model" "default"
        [artifactAt "artifacts/a" 5, artifactAt "artifacts/b" 9]).logs =
      [⟨"Mutiple artifacts with uri " ++ "gs://bucket/model" ++
          " were found: " ++ String.intercalate "\n"
            (([artifactAt "artifacts/a" 5,
               artifactAt "artifacts/b" 9]).map (fun a => a.resourceName))⟩,
       ⟨"Returning " ++ (artifactAt "artifacts/a" 5).resourceName⟩] :=
  c1_amended_returns_first_and_logs_all_names "gs://bucket/model" "default"
    (artifactAt "artifacts/a" 5) [artifactAt "artifacts/b" 9] (by decide)

/-- C2 counterexample: with zero matches `get_with_uri` raises
`ValueError`, not an error of the `NotFound` kind — refuting the claim
that the zero-match failure is a `NotFound`. -/
theorem c2_counterexample_zero_matches_is_value_error :
    (get_with_uri "gs://bucket/model" "default" []).result =
      .error (.valueError
        "No artifact with uri gs://bucket/model is in the default MetadataStore.") ∧
    raisedNotFound
      (get_with_uri "gs://bucket/model" "default" []).result = false := by
  exact ⟨rfl, rfl⟩

/-- C2 (amended): with zero matches `get_with_uri` fails with a
`ValueError` (a Python builtin, not the `NotFound` error class), and
with exactly one match it returns that match. -/
theorem c2_amended_zero_value_error_one_returned (uri msid : String)
    (a : ArtifactRec) :
    (get_with_uri uri msid []).result =
      .error (.valueError ("No artifact with uri " ++ uri ++ " is in the " ++
        msid ++ " MetadataStore.")) ∧
    (get_with_uri uri msid [a]).result = .ok a := by
  exact ⟨rfl, rfl⟩

/-- C3: when the remote create call fails with `AlreadyExists`,
`_Artifact._create` re-raises that same error unchanged, and no handle
is constructed. -/
theorem c3_already_exists_reraised
    (create_result : Except PyError ArtifactRec) (m : String)
    (project location : Option String)
    (h : create_result = .error (.alreadyExists m)) :
    Artifact_create create_result project location =
      .error (.alreadyExists m) ∧
    ∀ handle,
      Artifact_create create_result project location ≠ .ok handle := by
  subst h
  refine ⟨rfl, ?_⟩
  intro handle hcontra
  simp [Artifact_create] at hcontra

/-- Witness for C3 at a concrete `AlreadyExists` failure. -/
theorem c3_witness :
    Artifact_create (.error (.alreadyExists "Artifact exists")) none none =
      .error (.alreadyExists "Artifact exists") :=
  (c3_already_exists_reraised (.error (.alreadyExists "Artifact exists"))
    "Artifact exists" none none rfl).1

/-- C4: `resolve_vertex_resource` sorts the listed artifacts ascending
by creation time and returns the last element — a listed artifact of
maximum creation timestamp — when the list is non-empty, and `none`
when it is empty. -/
theorem c4_resolver_returns_most_recent_or_none
    (artifacts : List ArtifactRec) :
    resolveFromList artifacts = (sortByCreateTime artifacts).getLast? ∧
    (artifacts = [] → resolveFromList artifacts = none) ∧
    (artifacts ≠ [] → ∃ a, resolveFromList artifacts = some a ∧
      a ∈ artifacts ∧ ∀ b ∈ artifacts, b.createTime ≤ a.createTime) := by
  refine ⟨rfl, ?_, ?_⟩
  · rintro rfl
    simp [resolveFromList, sortByCreateTime]
  · intro hne
    have hperm := sortByCreateTime_perm artifacts
    have hsne : sortByCreateTime artifacts ≠ [] := by
      intro h
      exact hne (List.Perm.eq_nil ((h ▸ hperm).symm))
    refine ⟨(sortByCreateTime artifacts).getLast hsne, ?_, ?_, ?_⟩
    · exact List.getLast?_eq_getLast _ hsne
    · exact hperm.mem_iff.mp (List.getLast_mem hsne)
    · intro b hb
      exact pairwise_rel_getLast (sortByCreateTime_pairwise artifacts)
        (fun a => Nat.le_refl a.createTime) hsne (hperm.mem_iff.mpr hb)

/-- Witness for C4 at a concrete two-element list. -/
theorem c4_witness :
    ∃ a, resolveFromList
        [artifactAt "artifacts/a" 5, artifactAt "artifacts/b" 9] = some a ∧
      a ∈ [artifactAt "artifacts/a" 5, artifactAt "artifacts/b" 9] ∧
      ∀ b ∈ [artifactAt "artifacts/a" 5, artifactAt "artifacts/b" 9],
        b.createTime ≤ a.createTime :=
  (c4_resolver_returns_most_recent_or_none
    [artifactAt "artifacts/a" 5, artifactAt "artifacts/b" 9]).2.2 (by decide)

end Metadata

namespace Metadata

/-- `resolveFromList` returns `none` exactly on the empty list. -/
theorem resolveFromList_eq_none_iff (l : List ArtifactRec) :
    resolveFromList l = none ↔ l = [] := by
  simp only [resolveFromList, List.getLast?_eq_none_iff]
  constructor
  · intro h
    exact List.Perm.eq_nil ((h ▸ sortByCreateTime_perm l).symm)
  · rintro rfl
    simp [sortByCreateTime]

/-- C5: two sequential calls of `resolve_or_create_resource_artifact`
on the same resource, with no interleaved writers, return the same
artifact; the first call resolves or creates it and the second call
resolves that same artifact without creating another. -/
theorem c5_resolve_or_create_idempotent (store : MetadataStore)
    (resource : VertexModel) :
    (resolve_or_create_resource_artifact
        (resolve_or_create_resource_artifact store resource).2 resource).1 =
      (resolve_or_create_resource_artifact store resource).1 ∧
    (resolve_or_create_resource_artifact
        (resolve_or_create_resource_artifact store resource).2 resource).2 =
      (resolve_or_create_resource_artifact store resource).2 := by
  rcases h : resolve_vertex_resource store resource with _ | a
  · have h' : listMatching store (resource_to_artifact_type resource)
        (make_gcp_resource_url resource) = [] := by
      apply (resolveFromList_eq_none_iff _).mp
      simpa only [resolve_vertex_resource] using h
    have hres2 : resolve_vertex_resource
        (create_vertex_resource_artifact store resource).2 resource =
        some (create_vertex_resource_artifact store resource).1 := by
      simp only [resolve_vertex_resource, create_vertex_resource_artifact,
        storeCreateArtifact, listMatching] at h' ⊢
      simp only [Bool.decide_and] at h'
      simp [List.filter_append, h', resolveFromList, sortByCreateTime]
    constructor
    · simp [resolve_or_create_resource_artifact, h, hres2]
    · simp [resolve_or_create_resource_artifact, h, hres2]
  · constructor
    · simp [resolve_or_create_resource_artifact, h]
    · simp [resolve_or_create_resource_artifact, h]

end Metadata

namespace ReasoningEngines

/-- `splitlines` on the empty content yields no lines. -/
theorem splitlines_nil : splitlines [] = [] := by
  rw [splitlines]

/-- `splitlines` strips one leading newline-terminated line whose
characters contain no line boundary. -/
theorem splitlines_line_append (l rest : List Char)
    (h : ∀ c ∈ l, isLineBreak c = false) :
    splitlines (l ++ '\n' :: rest) = l :: splitlines rest := by
  induction l with
  | nil =>
    simp only [List.nil_append]
    rw [splitlines]
    rw [if_neg (by intro hand; exact absurd hand.1 (by decide))]
    rw [if_pos (by decide)]
  | cons c l ih =>
    have hc : isLineBreak c = false := h c (List.mem_cons_self _ _)
    have hcr : ¬(c = '\r') := by
      intro e; subst e; simp [isLineBreak] at hc
    have hih := ih (fun x hx => h x (List.mem_cons_of_mem _ hx))
    rw [List.cons_append, splitlines]
    rw [if_neg (fun hand => hcr hand.1)]
    rw [if_neg (by simp [hc])]
    rw [hih]

/-- Splitting the encoding of boundary-free lines recovers the lines. -/
theorem splitlines_encodeLines (lines : List (List Char))
    (h : ∀ l ∈ lines, ∀ c ∈ l, isLineBreak c = false) :
    splitlines (encodeLines lines) = lines := by
  induction lines with
  | nil =>
    show splitlines [] = []
    rw [splitlines]
  | cons l ls ih =>
    have he : encodeLines (l :: ls) = l ++ '\n' :: encodeLines ls := rfl
    rw [he, splitlines_line_append _ _ (h l (List.mem_cons_self _ _))]
    rw [ih (fun x hx => h x (List.mem_cons_of_mem _ hx))]

/-- C7: giving `requirements` as a path to a file holding exactly the
given lines is indistinguishable from giving the list of lines directly:
the uploaded requirements blob is byte-identical, and in fact the whole
outcome and event trace of `create` agree. -/
theorem c7_requirements_file_equals_list (env : CreateEnv)
    (app : QueryableApp) (args : CreateArgs) (path : String)
    (lines : List (List Char))
    (hread : env.fs.readFile path = some (encodeLines lines))
    (hnb : ∀ l ∈ lines, ∀ c ∈ l, isLineBreak c = false) :
    requirementsBlob (create env app
        { args with requirements := some (.inl path) }).2 =
      requirementsBlob (create env app
        { args with requirements := some (.inr lines) }).2 ∧
    create env app { args with requirements := some (.inl path) } =
      create env app { args with requirements := some (.inr lines) } := by
  have hnorm : normalizeRequirements env.fs (some (.inl path)) =
      normalizeRequirements env.fs (some (.inr lines)) := by
    simp only [normalizeRequirements, hread]
    rw [splitlines_encodeLines lines hnb]
  have hmain : create env app { args with requirements := some (.inl path) } =
      create env app { args with requirements := some (.inr lines) } := by
    simp only [create, hnorm]
  exact ⟨by rw [hmain], hmain⟩

/-- Witness for C7: with `requirements.txt` holding `sampleLines`, the
path form and the list form of `create` coincide. -/
theorem c7_witness :
    requirementsBlob (create sampleEnv sampleApp
        { sampleArgs with requirements := some (.inl "requirements.txt") }).2 =
      requirementsBlob (create sampleEnv sampleApp
        { sampleArgs with requirements := some (.inr sampleLines) }).2 ∧
    create sampleEnv sampleApp
        { sampleArgs with requirements := some (.inl "requirements.txt") } =
      create sampleEnv sampleApp
        { sampleArgs with requirements := some (.inr sampleLines) } :=
  c7_requirements_file_equals_list sampleEnv sampleApp sampleArgs
    "requirements.txt" sampleLines rfl (by decide)

end ReasoningEngines

namespace ReasoningEngines

/-- C6: when some `extra_packages` entry names a path that does not
exist, `create` fails with a `FileNotFoundError` naming a missing entry,
and its trace contains no object-storage call and no RPC — the uploads
of `_prepare` never start before the whole `extra_packages` validation
loop has passed. -/
theorem c6_missing_extra_package_fails_before_any_upload
    (env : CreateEnv) (app : QueryableApp) (args : CreateArgs)
    (sb : String) (reqs : List (List Char)) (missing : String)
    (hver : args.sysVersion.getD env.runtimeVersion ∈
      SUPPORTED_PYTHON_VERSIONS)
    (hsb : env.stagingBucket = some sb)
    (hgs : strStartsWith sb "gs://" = true)
    (hq : app.hasCallableQuery = true)
    (hsig : app.signatureOk = true)
    (hreq : normalizeRequirements env.fs args.requirements = .ok reqs)
    (hmem : missing ∈ args.extraPackages.getD [])
    (hmiss : env.fs.pathExists missing = false) :
    (∃ p, p ∈ args.extraPackages.getD [] ∧ env.fs.pathExists p = false ∧
      (create env app args).1 = .error (.fileNotFoundError
        ("Extra package specified but not found: " ++ p))) ∧
    ∀ e ∈ (create env app args).2, e.touchesRemote = false := by
  have hfind : ((args.extraPackages.getD []).find?
      (fun p => !(env.fs.pathExists p))).isSome := by
    rw [List.find?_isSome]
    exact ⟨missing, hmem, by simp [hmiss]⟩
  rcases Option.isSome_iff_exists.mp hfind with ⟨q, hq'⟩
  have hqmem := List.mem_of_find?_eq_some hq'
  have hqpath : env.fs.pathExists q = false := by
    have := List.find?_some hq'
    simpa using this
  constructor
  · refine ⟨q, hqmem, hqpath, ?_⟩
    simp only [create, hver, hsb, hgs, hq, hsig, hreq, hq']
    simp
  · intro e he
    simp only [create, hver, hsb, hgs, hq, hsig, hreq, hq'] at he
    simp only [not_true_eq_false, Bool.not_eq_true] at he
    rcases List.mem_append.mp he with h1 | h1
    · split at h1
      · simp at h1; subst h1; rfl
      · simp at h1
    · split at h1
      · simp at h1; subst h1; rfl
      · simp at h1

/-- Witness for C6: `missing.py` does not exist in `sampleFS`, so
`create` fails with `FileNotFoundError` and its trace touches nothing
remote. -/
theorem c6_witness :
    (∃ p, p ∈ (({ sampleArgs with
          extraPackages := some ["pkg_dir", "missing.py"] } :
            CreateArgs).extraPackages.getD []) ∧
        sampleEnv.fs.pathExists p = false ∧
        (create sampleEnv sampleApp { sampleArgs with
          extraPackages := some ["pkg_dir", "missing.py"] }).1 =
          .error (.fileNotFoundError
            ("Extra package specified but not found: " ++ p))) ∧
    ∀ e ∈ (create sampleEnv sampleApp { sampleArgs with
        extraPackages := some ["pkg_dir", "missing.py"] }).2,
      e.touchesRemote = false :=
  c6_missing_extra_package_fails_before_any_upload sampleEnv sampleApp
    { sampleArgs with extraPackages := some ["pkg_dir", "missing.py"] }
    "gs://staging" [] "missing.py" (by decide) rfl (by decide) rfl rfl rfl
    (by decide) rfl

end ReasoningEngines

namespace ReasoningEngines

/-- C8: when schema generation fails (with every validation passing),
`create` logs the failure and proceeds: the `create_reasoning_engine`
RPC is still issued, with `class_methods` left empty, and the call
succeeds. -/
theorem c8_schema_failure_logged_and_swallowed
    (env : CreateEnv) (app : QueryableApp) (args : CreateArgs)
    (sb : String) (reqs : List (List Char)) (msg : String)
    (hver : args.sysVersion.getD env.runtimeVersion ∈
      SUPPORTED_PYTHON_VERSIONS)
    (hsb : env.stagingBucket = some sb)
    (hgs : strStartsWith sb "gs://" = true)
    (hq : app.hasCallableQuery = true)
    (hsig : app.signatureOk = true)
    (hreq : normalizeRequirements env.fs args.requirements = .ok reqs)
    (hex : ∀ p ∈ args.extraPackages.getD [], env.fs.pathExists p = true)
    (hschema : app.schemaResult = .error msg) :
    ∃ spec : ReasoningEngineSpec,
      (create env app args).1 = .ok { name := env.createdName, spec := spec } ∧
      spec.classMethods = [] ∧
      Event.createReasoningEngineRPC spec ∈ (create env app args).2 ∧
      Event.logWarning ("failed to generate schema: " ++ msg) ∈
        (create env app args).2 := by
  have hfind : (args.extraPackages.getD []).find?
      (fun p => !(env.fs.pathExists p)) = none := by
    rw [List.find?_eq_none]
    intro x hx
    simp [hex x hx]
  use { packageSpec :=
          { pythonVersion := args.sysVersion.getD env.runtimeVersion,
            pickleObjectGcsUri := sb ++ "/" ++ args.gcsDirName ++ "/" ++
              BLOB_FILENAME,
            dependencyFilesGcsUri := sb ++ "/" ++ args.gcsDirName ++ "/" ++
              EXTRA_PACKAGES_FILE,
            requirementsGcsUri :=
              (if reqs.isEmpty then none
               else some (sb ++ "/" ++ args.gcsDirName ++ "/" ++
                 REQUIREMENTS_FILE)) },
        classMethods := [] }
  refine ⟨?_, rfl, ?_, ?_⟩
  · simp only [create, hver, hsb, hgs, hq, hsig, hreq, hfind, hschema]
    simp
  · simp only [create, hver, hsb, hgs, hq, hsig, hreq, hfind, hschema]
    simp
  · simp only [create, hver, hsb, hgs, hq, hsig, hreq, hfind, hschema]
    simp

/-- Witness for C8: `sampleAppNoSchema` fails schema generation, yet
`create` succeeds with empty `class_methods` and still issues the RPC. -/
theorem c8_witness :
    ∃ spec : ReasoningEngineSpec,
      (create sampleEnv sampleAppNoSchema sampleArgs).1 =
        .ok { name := sampleEnv.createdName, spec := spec } ∧
      spec.classMethods = [] ∧
      Event.createReasoningEngineRPC spec ∈
        (create sampleEnv sampleAppNoSchema sampleArgs).2 ∧
      Event.logWarning
          ("failed to generate schema: " ++ "schema generation blew up") ∈
        (create sampleEnv sampleAppNoSchema sampleArgs).2 :=
  c8_schema_failure_logged_and_swallowed sampleEnv sampleAppNoSchema
    sampleArgs "gs://staging" [] "schema generation blew up" (by decide) rfl
    (by decide) rfl rfl rfl (by decide) rfl

/-- C9: `ReasoningEngine.query` returns only the value under the
`"output"` key of the response dictionary when that key is present, and
the whole dictionary otherwise — other top-level fields are dropped in
the first case. -/
theorem c9_query_unwraps_output (output : List (String × Json)) :
    (∀ v, output.lookup "output" = some v →
      ReasoningEngine_query output = v) ∧
    (output.lookup "output" = none →
      ReasoningEngine_query output = .obj output) := by
  constructor
  · intro v hv
    simp [ReasoningEngine_query, hv]
  · intro hv
    simp [ReasoningEngine_query, hv]

/-- Witness for C9: a response with an `"output"` field and another
field returns just the `"output"` value; the other field is gone. -/
theorem c9_witness :
    ReasoningEngine_query
      [("output", Json.str "answer"), ("metadata", Json.num 3)] =
      Json.str "answer" :=
  (c9_query_unwraps_output
    [("output", Json.str "answer"), ("metadata", Json.num 3)]).1
    (Json.str "answer") rfl

end ReasoningEngines

namespace Transport

/-- C10 counterexample: with a credentials object and the empty string
as `credentials_file` — both arguments supplied — the constructor does
not raise `DuplicateCredentialArgs`: the truthiness test
`credentials and credentials_file` is false for the empty string, while
the `credentials_file is not None` branch still runs, so a load from
the empty path is attempted. -/
theorem c10_counterexample_empty_file_bypasses_check :
    (ModelServiceTransport_init
        { loadFromFile := fun p => ⟨"file:" ++ p⟩,
          defaultCredentials := ⟨"adc"⟩ }
        DEFAULT_HOST (some ⟨"user"⟩) (some "")).1 =
      .ok { host := "aiplatform.googleapis.com:443",
            credentials := ⟨"file:"⟩ } ∧
    (ModelServiceTransport_init
        { loadFromFile := fun p => ⟨"file:" ++ p⟩,
          defaultCredentials := ⟨"adc"⟩ }
        DEFAULT_HOST (some ⟨"user"⟩) (some "")).2 =
      [CredEvent.loadCredentialsFromFile ""] := by
  exact ⟨rfl, rfl⟩

/-- C10 (amended): whenever a credentials object and a non-empty
`credentials_file` are both supplied, the constructor raises
`DuplicateCredentialArgs` and makes no credential-acquisition call —
the check precedes any credential loading or default lookup.  (An empty
string supplied as `credentials_file` is falsy in Python and bypasses
the check.) -/
theorem c10_amended_duplicate_creds_checked_first (env : AuthEnv)
    (host : String) (cred : Credentials) (path : String)
    (hne : path ≠ "") :
    ModelServiceTransport_init env host (some cred) (some path) =
      (.error (.duplicateCredentialArgs
        "credentials_file and credentials are mutually exclusive"), []) := by
  simp only [ModelServiceTransport_init]
  rw [if_pos ⟨rfl, by simp [truthyOptStr, hne]⟩]

/-- Witness for the amended C10 at a concrete non-empty path. -/
theorem c10_amended_witness :
    ModelServiceTransport_init
      { loadFromFile := fun p => ⟨"file:" ++ p⟩,
        defaultCredentials := ⟨"adc"⟩ }
      DEFAULT_HOST (some ⟨"user"⟩) (some "creds.json") =
      (.error (.duplicateCredentialArgs
        "credentials_file and credentials are mutually exclusive"), []) :=
  c10_amended_duplicate_creds_checked_first
    { loadFromFile := fun p => ⟨"file:" ++ p⟩,
      defaultCredentials := ⟨"adc"⟩ }
    DEFAULT_HOST ⟨"user"⟩ "creds.json" (by decide)

end Transport
